import Mathlib

/-!
# Verification of the Valdris world-clock core

A shallow embedding, in Lean 4, of the time-engine and celestial-tracker
modules of the `sillytavern-litrpg-extensions-2` repository, together with
proofs and refutations of the specification claims about them.

Conventions used throughout:
* JS numbers that only ever hold integers are modelled as `Int`
  (or `Nat` where the source value is manifestly non-negative).
* `while` loops are modelled as structurally recursive functions taking an
  explicit iteration bound; each caller passes a bound that provably exceeds
  the number of iterations the source loop performs, so the bound is never
  exhausted on the inputs the source can reach.
* Functions that cannot throw are still given an `Except String` result type
  when a claim is about their error behaviour; the body then shows every
  path returns `Except.ok`, exactly as the source returns normally.
* Fields of the mutable time state that no claim mentions (display strings,
  weather, settings, listener bookkeeping) are omitted from the state record.
-/

/-! ## Data model (time-engine module) -/

/-- Moon sub-record of the time state (`moons.lunara` / `moons.veil`). -/
structure MoonState where
  phase : String
  dayInCycle : Int
  daysUntilFull : Int
  daysUntilNew : Int
  visible : Bool
  effects : List String
deriving DecidableEq

/-- The two moons tracked by the engine. -/
structure Moons where
  lunara : MoonState
  veil : MoonState
deriving DecidableEq

/-- The time state owned by the clock.  Only the fields the claims are about
are modelled: raw date/time, the two moon sub-records, and the celestial
effect strings written by `updateCelestialEffects`. -/
structure TimeState where
  year : Int
  month : Int
  day : Int
  hour : Int
  minute : Int
  moons : Moons
  celestialEffects : List String
deriving DecidableEq

/-- One entry of the `MONTHS` table. -/
structure MonthDef where
  name : String
  days : Int
  season : String

/-- The 12-month Valdris calendar (time-engine, `MONTHS`). -/
def MONTHS : List MonthDef :=
  [ ⟨"Frostmorn", 30, "winter"⟩
  , ⟨"Deepsnow", 28, "winter"⟩
  , ⟨"Thawbreak", 31, "spring"⟩
  , ⟨"Rainbloom", 30, "spring"⟩
  , ⟨"Sunrise", 31, "spring"⟩
  , ⟨"Highsun", 30, "summer"⟩
  , ⟨"Goldpeak", 31, "summer"⟩
  , ⟨"Harvest", 31, "autumn"⟩
  , ⟨"Leaffall", 30, "autumn"⟩
  , ⟨"Dimlight", 30, "autumn"⟩
  , ⟨"Darkeve", 30, "winter"⟩
  , ⟨"Stillnight", 29, "winter"⟩ ]

/-- JS array indexing `MONTHS[i]`: any out-of-range index (negative included)
yields `undefined`, modelled as `none`. -/
def monthsAt (i : Int) : Option MonthDef :=
  if 0 ≤ i then MONTHS.get? i.toNat else none

/-- Model of `getMonthLength(month, year)` from the time-engine module: base month
length from the table, except the 12th month has 30 days when
`year % 4 == 0`; an out-of-range month falls back to 30. -/
def getMonthLength (month year : Int) : Int :=
  match monthsAt (month - 1) with
  | none => 30
  | some monthData =>
    if month = 12 ∧ year % 4 = 0 then 30
    else monthData.days

/-! ## Moon phase system (time-engine module) -/

/-- The 8-entry phase table `MOON_PHASES`. -/
def MOON_PHASES : List String :=
  [ "new", "waxing_crescent", "first_quarter", "waxing_gibbous"
  , "full", "waning_gibbous", "last_quarter", "waning_crescent" ]

def LUNARA_CYCLE : Int := 28

def VEIL_CYCLE : Int := 35

/-- Model of `Math.floor(dayInCycle / (LUNARA_CYCLE / 8))` from `updateMoonPhases`.
The JS division is on doubles; since `28 / 8 = 3.5` is exactly representable
and the quotient of a small integer by it is never within double rounding
error of an integer unless exact, the floor equals `⌊8·d / 28⌋`. -/
def lunaraPhaseIndex (d : Int) : Nat := ((d * 8) / LUNARA_CYCLE).toNat

/-- Model of `Math.floor(dayInCycle / (VEIL_CYCLE / 8))`; `35 / 8 = 4.375` is exactly
representable, so this is `⌊8·d / 35⌋`. -/
def veilPhaseIndex (d : Int) : Nat := ((d * 8) / VEIL_CYCLE).toNat

/-- Model of `getMoonEffects(moon, phase)` from the time-engine module. -/
def getMoonEffects (moon phase : String) : List String :=
  if moon = "lunara" then
    if phase = "full" then
      ["Undead +20% active", "Lycanthrope transformation", "Tides high", "Moonlight bright"]
    else if phase = "new" then
      ["Undead -10% active", "Dark vision impaired", "Stealth enhanced"]
    else if phase = "waxing_gibbous" ∨ phase = "waning_gibbous" then
      ["Undead +10% active"]
    else []
  else if moon = "veil" then
    if phase = "full" then
      ["Shadow magic enhanced", "Veil between worlds thin", "Spirit activity high"]
    else if phase = "new" then
      ["Shadow magic weakened", "Spirits dormant"]
    else []
  else []

/-- JS `x || y` on numbers, as used in `daysUntilNew = (...) % CYCLE || CYCLE`:
the fallback is taken exactly when the left value is `0`. -/
def jsOrElse (v fallback : Int) : Int := if v = 0 then fallback else v

/-- Model of `updateCelestialEffects(state)` from the time-engine module: rebuilds
`state.celestialEffects` from the three alignment checks. -/
def updateCelestialEffects (state : TimeState) : TimeState :=
  let effects :=
    (if state.moons.lunara.phase = "full" ∧ state.moons.veil.phase = "full" then
      ["Convergence Night - All magical effects doubled"] else []) ++
    (if state.moons.lunara.phase = "full" ∧ state.moons.veil.dayInCycle = VEIL_CYCLE / 2 then
      ["Veil\x27s Eclipse - Undead surge, shadow magic peaks"] else []) ++
    (if state.moons.lunara.phase = "new" ∧ state.moons.veil.phase = "new" then
      ["Void Night - Near total darkness, aberrations stir"] else [])
  { state with celestialEffects := effects }

/-- Model of `updateMoonPhases(state)` from the time-engine module: advances each
moon by one cycle day, rebuckets its phase, recomputes the derived counters
and effects, then refreshes the celestial effects.  The source additionally
emits `moonPhaseChanged` events and stores a `_previousPhase` bookkeeping
field used only for those events; neither is part of the modelled state.
The source never assigns `lunara.visible`, so it is carried over unchanged.
JS `%` agrees with `Int.emod` here because `dayInCycle + 1` is non-negative
whenever `dayInCycle` is, which every reachable state satisfies. -/
def updateMoonPhases (state : TimeState) : TimeState :=
  let lunaraDay := (state.moons.lunara.dayInCycle + 1) % LUNARA_CYCLE
  let lunaraPhase := MOON_PHASES.getD (lunaraPhaseIndex lunaraDay) "undefined"
  let lunara : MoonState :=
    { phase := lunaraPhase
      dayInCycle := lunaraDay
      daysUntilFull := (LUNARA_CYCLE / 2 - lunaraDay + LUNARA_CYCLE) % LUNARA_CYCLE
      daysUntilNew := jsOrElse ((LUNARA_CYCLE - lunaraDay) % LUNARA_CYCLE) LUNARA_CYCLE
      visible := state.moons.lunara.visible
      effects := getMoonEffects "lunara" lunaraPhase }
  let veilDay := (state.moons.veil.dayInCycle + 1) % VEIL_CYCLE
  let veilPhase := MOON_PHASES.getD (veilPhaseIndex veilDay) "undefined"
  let veil : MoonState :=
    { phase := veilPhase
      dayInCycle := veilDay
      daysUntilFull := (VEIL_CYCLE / 2 - veilDay + VEIL_CYCLE) % VEIL_CYCLE
      daysUntilNew := jsOrElse ((VEIL_CYCLE - veilDay) % VEIL_CYCLE) VEIL_CYCLE
      visible := veilPhase != "new"
      effects := getMoonEffects "veil" veilPhase }
  updateCelestialEffects { state with moons := { lunara := lunara, veil := veil } }

/-! ## Time advancement (time-engine module) -/

/-- The `while (state.minute >= 60)` loop of `advanceTime`.  The first
argument bounds the number of iterations; since every pass lowers `minute`
by 60, passing `minute.toNat` (as `advanceTimeCore` does) is always enough,
so the bound is never exhausted on inputs the source reaches. -/
def minuteLoop : Nat → Int → Int → Int × Int
  | 0, minute, hour => (minute, hour)
  | bound + 1, minute, hour =>
    if 60 ≤ minute then minuteLoop bound (minute - 60) (hour + 1) else (minute, hour)

/-- The `while (state.hour >= 24)` loop of `advanceTime`; also tracks the
`dayAdvanced` flag, which the loop sets as soon as it runs once. -/
def hourLoop : Nat → Int → Int → Bool → Int × Int × Bool
  | 0, hour, day, dayAdvanced => (hour, day, dayAdvanced)
  | bound + 1, hour, day, dayAdvanced =>
    if 24 ≤ hour then hourLoop bound (hour - 24) (day + 1) true
    else (hour, day, dayAdvanced)

/-- The `while (state.day > monthLength)` loop of `advanceTime`, with its
`monthAdvanced` / `yearAdvanced` flags.  Note `monthLength` is computed once
by the caller and never refreshed inside the loop, exactly as in the source.
Each pass lowers `day` by `monthLength ≥ 28`, so a bound of `day.toNat` is
never exhausted on inputs the source reaches. -/
def dayLoop : Nat → Int → Int → Int → Int → Bool → Bool → Int × Int × Int × Bool × Bool
  | 0, _, day, month, year, monthAdvanced, yearAdvanced =>
    (day, month, year, monthAdvanced, yearAdvanced)
  | bound + 1, monthLength, day, month, year, monthAdvanced, yearAdvanced =>
    if monthLength < day then
      let day1 := day - monthLength
      let month1 := month + 1
      if 12 < month1 then dayLoop bound monthLength day1 1 (year + 1) true true
      else dayLoop bound monthLength day1 month1 year true yearAdvanced
    else (day, month, year, monthAdvanced, yearAdvanced)

/-- The cascading body of `advanceTime` for a positive amount: add the
minutes, run the three overflow loops, and—when a day boundary was
crossed—run `updateMoonPhases`.  The derived display fields recomputed by
`updateDerivedValues` (month name, season, day of week, sun times) are not
part of the modelled state. -/
def advanceTimeCore (minutes : Int) (state : TimeState) : TimeState :=
  let minute0 := state.minute + minutes
  let mh := minuteLoop minute0.toNat minute0 state.hour
  let hd := hourLoop mh.2.toNat mh.2 state.day false
  let monthLength := getMonthLength state.month state.year
  let dmy := dayLoop hd.2.1.toNat monthLength hd.2.1 state.month state.year false false
  let state1 : TimeState :=
    { state with
      minute := mh.1
      hour := hd.1
      day := dmy.1
      month := dmy.2.1
      year := dmy.2.2.1 }
  if hd.2.2 then updateMoonPhases state1 else state1

/-- Model of `advanceTime(minutes)` from the time-engine module.  The source guards
with `if (minutes <= 0) return getDomainState(DOMAIN);`, i.e. it returns the
current state unchanged, and its body contains no throwing path, so every
branch of the model returns `Except.ok`.  Persistence and event emission are
outside the modelled state. -/
def advanceTime (minutes : Int) (state : TimeState) : Except String TimeState :=
  if minutes ≤ 0 then Except.ok state
  else Except.ok (advanceTimeCore minutes state)

/-- The possibly-absent fields of the object passed to `setTime`. -/
structure TimePatch where
  year : Option Int
  month : Option Int
  day : Option Int
  hour : Option Int
  minute : Option Int

/-- Model of `setTime(newTime)` from the time-engine module: apply the provided
fields, clamp month, day (against the clamped month), hour and minute, then
run `updateMoonPhases` (the source always does, even when nothing crossed a
boundary). -/
def setTime (newTime : TimePatch) (state : TimeState) : TimeState :=
  let s1 : TimeState :=
    { state with
      year := newTime.year.getD state.year
      month := newTime.month.getD state.month
      day := newTime.day.getD state.day
      hour := newTime.hour.getD state.hour
      minute := newTime.minute.getD state.minute }
  let month := max 1 (min 12 s1.month)
  let day := max 1 (min (getMonthLength month s1.year) s1.day)
  let hour := max 0 (min 23 s1.hour)
  let minute := max 0 (min 59 s1.minute)
  updateMoonPhases { s1 with month := month, day := day, hour := hour, minute := minute }

/-- Model of `createDefaultTimeState()`, restricted to the modelled fields.  The
source default for `moons.lunara` has no `visible` property; it is modelled
as `true` (the main moon is treated as visible everywhere it is read). -/
def createDefaultTimeState : TimeState :=
  { year := 2847
    month := 7
    day := 14
    hour := 18
    minute := 0
    moons :=
      { lunara :=
          { phase := "waxing_gibbous", dayInCycle := 11, daysUntilFull := 3
            daysUntilNew := 17, visible := true, effects := [] }
        veil :=
          { phase := "new", dayInCycle := 0, daysUntilFull := 17
            daysUntilNew := 0, visible := false, effects := [] } }
    celestialEffects := [] }

/-! ## The absolute day and minute count of the calendar

`calculateDayOfWeek` in the time-engine module counts total days since the
epoch (year 1, month 1, day 1) by summing `getYearLength` over the previous
years, `getMonthLength` over the previous months of the current year, and
`day - 1`.  The spec notion of absolute minute-count-since-epoch extends that
count to minutes. -/

/-- Model of `getYearLength(year)` from the time-engine module. -/
def getYearLength (year : Int) : Int :=
  (List.range 12).foldl (fun total m => total + getMonthLength (m + 1) year) 0

/-- Total days in years `1 .. n` of the calendar. -/
def yearsBefore : Nat → Int
  | 0 => 0
  | n + 1 => yearsBefore n + getYearLength (n + 1)

/-- Days since the epoch, exactly as counted by `calculateDayOfWeek`. -/
def absDays (s : TimeState) : Int :=
  yearsBefore (s.year - 1).toNat +
    (List.range (s.month - 1).toNat).foldl
      (fun total m => total + getMonthLength (m + 1) s.year) 0 +
    (s.day - 1)

/-- Absolute minute count since the epoch, under the month lengths of the
calendar itself (spec section 8). -/
def absMinutes (s : TimeState) : Int :=
  absDays s * 1440 + s.hour * 60 + s.minute

/-! ## A small regular-expression engine

The duration rules of the time-engine module are JS regex literals.  They
use only literals, `i`-insensitivity, character classes `\d` and `\s`,
alternation, non-capturing groups, `?`, `+` and `*`, so they embed into the
following regex type, matched by Brzozowski derivatives.  Matching a string
against a pattern (JS `String.prototype.match`) is an unanchored search:
some substring must match, and the leftmost match position is the first
index at which some prefix of the remaining text matches. -/

inductive RE where
  | emp : RE
  | eps : RE
  | cls : (Char → Bool) → RE
  | cat : RE → RE → RE
  | alt : RE → RE → RE
  | star : RE → RE

/-- Simplifying concatenation (keeps derivative terms small). -/
def scat : RE → RE → RE
  | RE.emp, _ => RE.emp
  | _, RE.emp => RE.emp
  | RE.eps, r => r
  | r, RE.eps => r
  | a, b => RE.cat a b

/-- Simplifying alternation. -/
def salt : RE → RE → RE
  | RE.emp, r => r
  | r, RE.emp => r
  | a, b => RE.alt a b

/-- Does the expression accept the empty string? -/
def nullable : RE → Bool
  | RE.emp => false
  | RE.eps => true
  | RE.cls _ => false
  | RE.cat a b => nullable a && nullable b
  | RE.alt a b => nullable a || nullable b
  | RE.star _ => true

/-- Brzozowski derivative by one character. -/
def reDeriv : RE → Char → RE
  | RE.emp, _ => RE.emp
  | RE.eps, _ => RE.emp
  | RE.cls p, c => if p c then RE.eps else RE.emp
  | RE.cat a b, c =>
    if nullable a then salt (scat (reDeriv a c) b) (reDeriv b c)
    else scat (reDeriv a c) b
  | RE.alt a b, c => salt (reDeriv a c) (reDeriv b c)
  | RE.star a, c => scat (reDeriv a c) (RE.star a)

/-- Does some prefix of the character list match the expression? -/
def matchesPref : RE → List Char → Bool
  | r, [] => nullable r
  | RE.emp, _ :: _ => false
  | r, c :: cs => nullable r || matchesPref (reDeriv r c) cs

/-- Does the expression match anywhere in the character list? -/
def searchRE : RE → List Char → Bool
  | r, [] => nullable r
  | r, c :: cs => matchesPref r (c :: cs) || searchRE r cs

/-- JS `text.match(pattern) !== null` for the patterns in use. -/
def reTest (r : RE) (s : String) : Bool := searchRE r s.data

/-- The suffix of the text at the leftmost match position, if any. -/
def firstMatchSuffix : RE → List Char → Option (List Char)
  | r, [] => if nullable r then some [] else none
  | r, c :: cs =>
    if matchesPref r (c :: cs) then some (c :: cs) else firstMatchSuffix r cs

/-- Decimal value of a digit list. -/
def parseDigits (l : List Char) : Nat :=
  l.foldl (fun a c => a * 10 + (c.toNat - 48)) 0

/-- Model of `parseInt(match[1])` for the three numeric rules, whose first capture
group is the leading `(\d+)` of the match: the greedy capture is the digit
run at the leftmost match position.  `none` models `NaN` (no digits). -/
def extractLeadingNat (r : RE) (s : String) : Option Nat :=
  match firstMatchSuffix r s.data with
  | some suffix =>
    let ds := suffix.takeWhile Char.isDigit
    if ds.isEmpty then none else some (parseDigits ds)
  | none => none

/-- Case-insensitive single character (all pattern letters are written in
lower case; non-letters compare exactly). -/
def ichr (c : Char) : RE := RE.cls (fun x => x.toLower == c)

/-- JS `\s` (the whitespace characters that can occur in chat text). -/
def wsChar (c : Char) : Bool :=
  c == ' ' || c == '\t' || c == '\n' || c == '\r' || c == '\x0b' || c == '\x0c'

/-- Regex `\s*`. -/
def ws : RE := RE.star (RE.cls wsChar)

/-- Regex `\d`. -/
def digitRE : RE := RE.cls Char.isDigit

/-- Regex `(\d+)` (the capture itself is recovered by `extractLeadingNat`). -/
def digits1 : RE := RE.cat digitRE (RE.star digitRE)

/-- A case-insensitive literal. -/
def lit (s : String) : RE := s.data.foldr (fun c r => RE.cat (ichr c) r) RE.eps

/-- Regex `(?: ... )?`. -/
def opt (r : RE) : RE := RE.alt RE.eps r

/-- n-ary alternation. -/
def altL : List RE → RE
  | [] => RE.emp
  | [r] => r
  | r :: rs => RE.alt r (altL rs)

/-- n-ary concatenation. -/
def catL (rs : List RE) : RE := rs.foldr RE.cat RE.eps

/-! ## Duration estimation rules (time-engine module) -/

/-- The `type` discriminator of a duration rule, with its payload. -/
inductive PatKind where
  | hours : PatKind
  | minutes : PatKind
  | days : PatKind
  | fixed : Nat → PatKind
  | skipTo : String → PatKind
  | scene : Nat → PatKind
deriving DecidableEq

/-- One entry of `DURATION_PATTERNS`. -/
structure DurationRule where
  pattern : RE
  kind : PatKind
  priority : Nat

/-- The ordered rule table `DURATION_PATTERNS`, transcribed regex by
regex from the source. -/
def DURATION_PATTERNS : List DurationRule :=
  [ -- /(\d+)\s*hours?\s*(?:later|pass|have passed)/i
    ⟨catL [digits1, ws, lit "hour", opt (ichr 's'), ws,
      altL [lit "later", lit "pass", lit "have passed"]], PatKind.hours, 10⟩
  , -- /(\d+)\s*minutes?\s*(?:later|pass|have passed)/i
    ⟨catL [digits1, ws, lit "minute", opt (ichr 's'), ws,
      altL [lit "later", lit "pass", lit "have passed"]], PatKind.minutes, 10⟩
  , -- /(\d+)\s*days?\s*(?:later|pass|have passed)/i
    ⟨catL [digits1, ws, lit "day", opt (ichr 's'), ws,
      altL [lit "later", lit "pass", lit "have passed"]], PatKind.days, 10⟩
  , -- /half\s*(?:an?\s*)?hour\s*(?:later|pass)/i
    ⟨catL [lit "half", ws, opt (catL [ichr 'a', opt (ichr 'n'), ws]), lit "hour", ws,
      altL [lit "later", lit "pass"]], PatKind.fixed 30, 10⟩
  , -- /(?:a|an|one)\s*hour\s*(?:later|pass)/i
    ⟨catL [altL [lit "a", lit "an", lit "one"], ws, lit "hour", ws,
      altL [lit "later", lit "pass"]], PatKind.fixed 60, 10⟩
  , -- /(?:a|an|one)\s*day\s*(?:later|pass)/i
    ⟨catL [altL [lit "a", lit "an", lit "one"], ws, lit "day", ws,
      altL [lit "later", lit "pass"]], PatKind.fixed 1440, 10⟩
  , -- /several\s*hours?\s*(?:later|pass)/i
    ⟨catL [lit "several", ws, lit "hour", opt (ichr 's'), ws,
      altL [lit "later", lit "pass"]], PatKind.fixed 180, 9⟩
  , -- /(?:a\s*)?few\s*hours?\s*(?:later|pass)/i
    ⟨catL [opt (catL [ichr 'a', ws]), lit "few", ws, lit "hour", opt (ichr 's'), ws,
      altL [lit "later", lit "pass"]], PatKind.fixed 120, 9⟩
  , -- /(?:a\s*)?few\s*minutes?\s*(?:later|pass)/i
    ⟨catL [opt (catL [ichr 'a', ws]), lit "few", ws, lit "minute", opt (ichr 's'), ws,
      altL [lit "later", lit "pass"]], PatKind.fixed 10, 9⟩
  , -- /the\s*next\s*(morning|day)/i
    ⟨catL [lit "the", ws, lit "next", ws, altL [lit "morning", lit "day"]],
      PatKind.skipTo "morning", 8⟩
  , -- /the\s*next\s*evening/i
    ⟨catL [lit "the", ws, lit "next", ws, lit "evening"], PatKind.skipTo "evening", 8⟩
  , -- /the\s*next\s*night/i
    ⟨catL [lit "the", ws, lit "next", ws, lit "night"], PatKind.skipTo "night", 8⟩
  , -- /the\s*following\s*(morning|day)/i
    ⟨catL [lit "the", ws, lit "following", ws, altL [lit "morning", lit "day"]],
      PatKind.skipTo "morning", 8⟩
  , -- /dawn\s*breaks|sunrise|morning\s*comes|wake\s*(?:up|to)/i
    ⟨altL [catL [lit "dawn", ws, lit "breaks"], lit "sunrise",
      catL [lit "morning", ws, lit "comes"],
      catL [lit "wake", ws, altL [lit "up", lit "to"]]], PatKind.skipTo "morning", 7⟩
  , -- /night\s*falls|sunset|dusk\s*(?:falls|comes)|evening\s*comes/i
    ⟨altL [catL [lit "night", ws, lit "falls"], lit "sunset",
      catL [lit "dusk", ws, altL [lit "falls", lit "comes"]],
      catL [lit "evening", ws, lit "comes"]], PatKind.skipTo "evening", 7⟩
  , -- /midnight|dead\s*of\s*night/i
    ⟨altL [lit "midnight", catL [lit "dead", ws, lit "of", ws, lit "night"]],
      PatKind.skipTo "midnight", 7⟩
  , -- /noon|midday|middle\s*of\s*the\s*day/i
    ⟨altL [lit "noon", lit "midday",
      catL [lit "middle", ws, lit "of", ws, lit "the", ws, lit "day"]],
      PatKind.skipTo "noon", 7⟩
  , -- /(?:fierce|brutal|long|extended)\s*(?:combat|fight|battle)/i
    ⟨catL [altL [lit "fierce", lit "brutal", lit "long", lit "extended"], ws,
      altL [lit "combat", lit "fight", lit "battle"]], PatKind.scene 15, 5⟩
  , -- /combat|fight|battle|attack|clash|skirmish/i
    ⟨altL [lit "combat", lit "fight", lit "battle", lit "attack", lit "clash",
      lit "skirmish"], PatKind.scene 5, 4⟩
  , -- /long\s*rest|sleep|camp\s*for\s*the\s*night|retire\s*for\s*the\s*(?:night|evening)/i
    ⟨altL [catL [lit "long", ws, lit "rest"], lit "sleep",
      catL [lit "camp", ws, lit "for", ws, lit "the", ws, lit "night"],
      catL [lit "retire", ws, lit "for", ws, lit "the", ws,
        altL [lit "night", lit "evening"]]], PatKind.scene 480, 6⟩
  , -- /short\s*rest|breather|catch\s*(?:your|their)?\s*breath|take\s*a\s*break/i
    ⟨altL [catL [lit "short", ws, lit "rest"], lit "breather",
      catL [lit "catch", ws, opt (altL [lit "your", lit "their"]), ws, lit "breath"],
      catL [lit "take", ws, lit "a", ws, lit "break"]], PatKind.scene 60, 5⟩
  , -- /travel|journey|walk|ride|march|trek|make\s*(?:your|their)\s*way/i
    ⟨altL [lit "travel", lit "journey", lit "walk", lit "ride", lit "march", lit "trek",
      catL [lit "make", ws, altL [lit "your", lit "their"], ws, lit "way"]],
      PatKind.scene 120, 4⟩
  , -- /long\s*(?:conversation|discussion|talk)/i
    ⟨catL [lit "long", ws, altL [lit "conversation", lit "discussion", lit "talk"]],
      PatKind.scene 45, 5⟩
  , -- /conversation|talk|discuss|speak|chat/i
    ⟨altL [lit "conversation", lit "talk", lit "discuss", lit "speak", lit "chat"],
      PatKind.scene 15, 4⟩
  , -- /meal|breakfast|lunch|dinner|supper|feast|banquet/i
    ⟨altL [lit "meal", lit "breakfast", lit "lunch", lit "dinner", lit "supper",
      lit "feast", lit "banquet"], PatKind.scene 45, 4⟩
  , -- /quick\s*(?:meal|bite|snack)/i
    ⟨catL [lit "quick", ws, altL [lit "meal", lit "bite", lit "snack"]],
      PatKind.scene 15, 5⟩
  , -- /shop|browse|merchant|store|market|bazaar|trade/i
    ⟨altL [lit "shop", lit "browse", lit "merchant", lit "store", lit "market",
      lit "bazaar", lit "trade"], PatKind.scene 30, 4⟩
  , -- /search|examine|investigate|look\s*around|explore|scout/i
    ⟨altL [lit "search", lit "examine", lit "investigate",
      catL [lit "look", ws, lit "around"], lit "explore", lit "scout"],
      PatKind.scene 20, 4⟩
  , -- /train|practice|spar|exercise|drill/i
    ⟨altL [lit "train", lit "practice", lit "spar", lit "exercise", lit "drill"],
      PatKind.scene 60, 4⟩
  , -- /study|read|research|learn/i
    ⟨altL [lit "study", lit "read", lit "research", lit "learn"], PatKind.scene 60, 4⟩
  , -- /craft|forge|brew|create|make/i
    ⟨altL [lit "craft", lit "forge", lit "brew", lit "create", lit "make"],
      PatKind.scene 120, 4⟩
  , -- /meditate|pray|ritual|ceremony/i
    ⟨altL [lit "meditate", lit "pray", lit "ritual", lit "ceremony"],
      PatKind.scene 30, 4⟩
  , -- /wait|waiting|bide\s*(?:your|their)\s*time/i
    ⟨altL [lit "wait", lit "waiting",
      catL [lit "bide", ws, altL [lit "your", lit "their"], ws, lit "time"]],
      PatKind.scene 30, 3⟩ ]

/-! ## Scene duration estimation (time-engine module) -/

/-- An entry of the `detectedTypes` array: either a `{pattern, value}` record
(explicit / fixed / skip-to rules) or a `{pattern, estimate}` record (scene
rules); the JS `pattern.source` string is not modelled.  The final
`filter(d => d.estimate)` keeps exactly the `estimate` entries, since every
scene estimate in the table is non-zero (hence truthy). -/
inductive Detected where
  | value : String → Detected
  | estimate : Nat → Detected
deriving DecidableEq

/-- Result record of `estimateSceneDuration`. -/
structure EstimateResult where
  minutes : Nat
  confidence : String
  detectedTypes : List Detected
  skipTo : Option String
deriving DecidableEq

/-- One iteration of the `for (const p of DURATION_PATTERNS)` loop:
the accumulator is the result under construction plus `highestPriority`. -/
def estimateStep (text : String) (acc : EstimateResult × Nat) (p : DurationRule) :
    EstimateResult × Nat :=
  let result := acc.1
  let highestPriority := acc.2
  if ¬ reTest p.pattern text then acc
  else if p.priority < highestPriority then acc
  else
    match p.kind with
    | PatKind.hours =>
      match extractLeadingNat p.pattern text with
      | some h =>
        ({ result with
            minutes := h * 60
            confidence := "high"
            detectedTypes := [Detected.value (toString h ++ " hours")] }, p.priority)
      | none => acc
    | PatKind.minutes =>
      match extractLeadingNat p.pattern text with
      | some m =>
        ({ result with
            minutes := m
            confidence := "high"
            detectedTypes := [Detected.value (toString m ++ " minutes")] }, p.priority)
      | none => acc
    | PatKind.days =>
      match extractLeadingNat p.pattern text with
      | some d =>
        ({ result with
            minutes := d * 1440
            confidence := "high"
            detectedTypes := [Detected.value (toString d ++ " days")] }, p.priority)
      | none => acc
    | PatKind.fixed n =>
      ({ result with
          minutes := n
          confidence := "high"
          detectedTypes := [Detected.value (toString n ++ " minutes (fixed)")] }, p.priority)
    | PatKind.skipTo t =>
      ({ result with
          skipTo := some t
          confidence := "high"
          detectedTypes := [Detected.value ("skip to " ++ t)] }, p.priority)
    | PatKind.scene est =>
      if highestPriority ≤ p.priority then
        ({ result with
            detectedTypes := result.detectedTypes ++ [Detected.estimate est]
            confidence := if result.confidence ≠ "high" then "medium" else result.confidence },
         highestPriority)
      else acc

/-- JS `Math.max(...xs)` over a non-empty list of naturals. -/
def maxOfList (l : List Nat) : Nat := l.foldl max 0

/-- Model of `estimateSceneDuration(responseText)` from the time-engine module.  The
falsy-text guard (`if (!responseText)`) fires exactly on the empty string
and returns confidence `"none"`. -/
def estimateSceneDuration (responseText : String) : EstimateResult :=
  if responseText = "" then
    { minutes := 0, confidence := "none", detectedTypes := [], skipTo := none }
  else
    let r0 : EstimateResult :=
      { minutes := 0, confidence := "low", detectedTypes := [], skipTo := none }
    let st := DURATION_PATTERNS.foldl (estimateStep responseText) (r0, 0)
    let result := st.1
    let result :=
      if result.confidence ≠ "high" ∧ result.detectedTypes ≠ [] ∧ result.skipTo = none then
        let sceneEstimates := result.detectedTypes.filterMap (fun d =>
          match d with
          | Detected.estimate n => some n
          | Detected.value _ => none)
        if sceneEstimates = [] then result
        else { result with minutes := maxOfList sceneEstimates }
      else result
    if result.minutes = 0 ∧ result.skipTo = none ∧ result.confidence = "low" then
      { result with minutes := 3 }
    else result

/-! ## Skip-to targets (time-engine module) -/

/-- The `switch (target)` of `calculateSkipToMinutes`; `none` models the
`default: return 0` branch. -/
def skipTargetHour (target : String) : Option Int :=
  if target = "morning" then some 7
  else if target = "noon" then some 12
  else if target = "evening" then some 18
  else if target = "night" then some 21
  else if target = "midnight" then some 0
  else none

/-- Model of `calculateSkipToMinutes(currentTime, target)` from the time-engine
module. -/
def calculateSkipToMinutes (currentTime : TimeState) (target : String) : Int :=
  match skipTargetHour target with
  | none => 0
  | some targetHour =>
    let hoursToSkip := targetHour - currentTime.hour
    let hoursToSkip := if hoursToSkip ≤ 0 then hoursToSkip + 24 else hoursToSkip
    hoursToSkip * 60 - currentTime.minute

/-! ## Festivals (celestial-tracker module) -/

/-- One entry of the `FESTIVALS` table. -/
structure Festival where
  name : String
  month : Int
  day : Int
  duration : Int
  description : String
  effects : List String
  traditions : List String
deriving DecidableEq

/-- The `FESTIVALS` table. -/
def FESTIVALS : List Festival :=
  [ ⟨"Frostmeet", 1, 1, 3, "New Year celebration, honoring the dead of winter",
      ["Shops closed first day", "Feasting and gift-giving", "Bonfires common"],
      ["Telling tales of ancestors", "Burning effigies of the past year"]⟩
  , ⟨"Thaw Festival", 3, 15, 1, "Celebration of spring arrival",
      ["Markets busy", "Flower decorations everywhere"],
      ["Planting ceremonies", "Spring cleaning rituals"]⟩
  , ⟨"Solstice of Light", 6, 21, 1, "Longest day, celebration of Solarus",
      ["Temples of Solarus crowded", "Healing magic enhanced"],
      ["Dawn vigils", "Blessing of crops"]⟩
  , ⟨"Midsummer Eve", 7, 15, 2, "Festival of fey and magic",
      ["Fey crossings more common", "Wild magic surges possible"],
      ["Dancing around bonfires", "Leaving offerings for fey"]⟩
  , ⟨"Harvest Moon Festival", 8, 20, 3, "Celebration of the harvest",
      ["Food prices drop", "Alcohol flows freely", "Guards more lenient"],
      ["Harvest competitions", "Feast of plenty"]⟩
  , ⟨"Veilnight", 10, 31, 1, "Night when the veil between worlds is thinnest",
      ["Undead more active", "Spirits can communicate", "Necromancy enhanced"],
      ["Wearing masks", "Leaving food for spirits", "Staying indoors"]⟩
  , ⟨"Darkest Eve", 12, 21, 1, "Shortest day, honoring Nyx",
      ["Temples of Nyx crowded", "Shadow magic enhanced"],
      ["Candlelight vigils", "Meditation on endings"]⟩
  , ⟨"Year\x27s End", 12, 29, 2, "Final days of the year",
      ["Reflection and preparation", "Debts traditionally settled"],
      ["Burning regrets", "Making resolutions"]⟩ ]

/-- The `while (m <= 12)` loop in `getDaysUntilDate` that finishes the
current year on the wrap-to-next-year path.  The bound 13 covers every
reachable start (`m ≥ 2` there, so at most 11 iterations). -/
def finishYearLoop : Nat → Int → Int → Int → Int
  | 0, _, _, days => days
  | bound + 1, m, y, days =>
    if m ≤ 12 then finishYearLoop bound (m + 1) y (days + getMonthLength m y)
    else days

/-- The `while (m < targetMonth || (nextYear && y === year))` loop of
`getDaysUntilDate`: steps month by month (resetting `m` and bumping `y`
past month 12) and accumulates month lengths.  For every call the source
makes (`targetMonth ∈ [1,12]`), the loop runs at most 24 times, so the
bound of 26 passed by `getDaysUntilDate` is never exhausted. -/
def monthSumLoop (targetMonth year : Int) (nextYear : Bool) :
    Nat → Int → Int → Int → Int
  | 0, _, _, days => days
  | bound + 1, m, y, days =>
    if m < targetMonth ∨ (nextYear ∧ y = year) then
      if 12 < m then
        monthSumLoop targetMonth year nextYear bound 2 (y + 1)
          (days + getMonthLength 1 (y + 1))
      else
        monthSumLoop targetMonth year nextYear bound (m + 1) y
          (days + getMonthLength m y)
    else days

/-- Model of `getDaysUntilDate(timeState, targetMonth, targetDay, nextYear)` from the
celestial-tracker module. -/
def getDaysUntilDate (timeState : TimeState) (targetMonth targetDay : Int)
    (nextYear : Bool) : Int :=
  let startMonth := timeState.month
  let startDay := timeState.day
  let year := timeState.year
  if startMonth = targetMonth ∧ ¬ nextYear then targetDay - startDay
  else
    let days := getMonthLength startMonth year - startDay
    let m := startMonth + 1
    let y := year
    let mYDays :=
      if nextYear ∧ targetMonth ≤ startMonth then
        (1, y + 1, finishYearLoop 13 m y days)
      else (m, y, days)
    let days := monthSumLoop targetMonth year nextYear 26 mYDays.1 mYDays.2.1 mYDays.2.2
    days + targetDay

/-- An element of the list returned by `getUpcomingFestivals`: the festival
record spread together with `daysUntil`, `isToday` and `isOngoing`. -/
structure UpcomingFestival where
  festival : Festival
  daysUntil : Int
  isToday : Bool
  isOngoing : Bool
deriving DecidableEq

/-- The `daysUntil` computed by `getUpcomingFestivals` for one festival:
same month uses a direct (possibly negative) difference, later months use
`getDaysUntilDate` this year, earlier months use it with `nextYear`. -/
def festivalDaysUntil (timeState : TimeState) (festival : Festival) : Int :=
  if festival.month = timeState.month then festival.day - timeState.day
  else if timeState.month < festival.month then
    getDaysUntilDate timeState festival.month festival.day false
  else
    getDaysUntilDate timeState festival.month festival.day true

/-- Model of `getUpcomingFestivals(timeState, daysAhead)` from the celestial-tracker
module: compute `daysUntil` per festival, keep those in `[0, daysAhead]`,
and sort ascending by `daysUntil` (the JS comparator `a.daysUntil -
b.daysUntil`). -/
def getUpcomingFestivals (timeState : TimeState) (daysAhead : Int) :
    List UpcomingFestival :=
  List.insertionSort (fun a b => a.daysUntil ≤ b.daysUntil)
    (FESTIVALS.foldl (fun acc festival =>
      if 0 ≤ festivalDaysUntil timeState festival ∧
          festivalDaysUntil timeState festival ≤ daysAhead then
        acc ++ [{ festival := festival
                  daysUntil := festivalDaysUntil timeState festival
                  isToday := festivalDaysUntil timeState festival = 0
                  isOngoing := decide (festivalDaysUntil timeState festival < 0 ∧
                    -festival.duration ≤ festivalDaysUntil timeState festival) }]
      else acc) [])

/-! ## Celestial events (celestial-tracker module) -/

/-- One effect record of a celestial event. -/
structure EventEffect where
  type : String
  modifier : Int
  description : String
deriving DecidableEq

/-- The date sub-object handed to event conditions. -/
structure CelestialDate where
  month : Int
  day : Int
deriving DecidableEq

/-- One entry of `CELESTIAL_EVENTS`.  A condition is a function of the two
moon states and the date; `Except.error` models a condition that throws
(none of the five table entries can, but `checkCelestialEvents` guards each
evaluation with `try`/`catch`, which the claims are about). -/
structure CelestialEvent where
  name : String
  description : String
  condition : MoonState → MoonState → CelestialDate → Except String Bool
  effects : List EventEffect
  rarity : String
  icon : String

/-- The `CELESTIAL_EVENTS` table (keys in `Object.entries` order). -/
def CELESTIAL_EVENTS : List (String × CelestialEvent) :=
  [ ("convergence",
     { name := "Convergence Night"
       description := "Both moons are full simultaneously"
       condition := fun lunara veil _ =>
         Except.ok (lunara.phase == "full" && veil.phase == "full")
       effects :=
         [ ⟨"magic", 2, "All magical effects doubled"⟩
         , ⟨"undead", 50, "Undead surge"⟩
         , ⟨"spirits", 100, "Spirits roam freely"⟩ ]
       rarity := "very_rare"
       icon := "✨" })
  , ("veils_eclipse",
     { name := "Veil\x27s Eclipse"
       description := "The Veil passes before Lunara"
       condition := fun lunara veil _ =>
         Except.ok (lunara.phase == "full" && veil.dayInCycle == VEIL_CYCLE / 2)
       effects :=
         [ ⟨"shadow_magic", 50, "Shadow magic peaks"⟩
         , ⟨"undead", 30, "Undead empowered"⟩
         , ⟨"light_magic", -30, "Light magic weakened"⟩ ]
       rarity := "rare"
       icon := "🌑" })
  , ("void_night",
     { name := "Void Night"
       description := "Both moons are new - darkest night"
       condition := fun lunara veil _ =>
         Except.ok (lunara.phase == "new" && veil.phase == "new")
       effects :=
         [ ⟨"darkness", 3, "Near total darkness"⟩
         , ⟨"aberrations", 50, "Aberrations stir"⟩
         , ⟨"divination", -50, "Divination blocked"⟩ ]
       rarity := "rare"
       icon := "⬛" })
  , ("silver_tide",
     { name := "Silver Tide"
       description := "Lunara at perigee during full moon"
       condition := fun lunara _ _ =>
         Except.ok (lunara.phase == "full" && lunara.dayInCycle % 7 == 0)
       effects :=
         [ ⟨"tides", 4, "Extreme tides"⟩
         , ⟨"water_magic", 20, "Water magic enhanced"⟩
         , ⟨"coastal", -20, "Coastal travel dangerous"⟩ ]
       rarity := "uncommon"
       icon := "🌊" })
  , ("starfall",
     { name := "Starfall"
       description := "Meteor shower visible"
       condition := fun _ _ date =>
         Except.ok (date.month == 8 && 10 ≤ date.day && date.day ≤ 15)
       effects :=
         [ ⟨"star_metal", 100, "Star metal may fall"⟩
         , ⟨"wishes", 1, "Wishes more potent"⟩ ]
       rarity := "annual"
       icon := "⭐" })
  ]

/-- An element of the list returned by `checkCelestialEvents`. -/
structure ActiveEvent where
  id : String
  name : String
  description : String
  effects : List EventEffect
  rarity : String
  icon : String
deriving DecidableEq

/-- The record pushed onto `activeEvents` for a matching table entry. -/
def activeOf (kv : String × CelestialEvent) : ActiveEvent :=
  { id := kv.1
    name := kv.2.name
    description := kv.2.description
    effects := kv.2.effects
    rarity := kv.2.rarity
    icon := kv.2.icon }

/-- The `for (const [key, event] of Object.entries(CELESTIAL_EVENTS))` loop
of `checkCelestialEvents`, over an arbitrary table: a condition returning
`true` pushes the event, `false` skips it, and a thrown error (`catch`) is
skipped exactly like `false`. -/
def checkCelestialEventsOver (events : List (String × CelestialEvent))
    (lunara veil : MoonState) (date : CelestialDate) : List ActiveEvent :=
  events.foldl (fun acc kv =>
    match kv.2.condition lunara veil date with
    | Except.ok true => acc ++ [activeOf kv]
    | Except.ok false => acc
    | Except.error _ => acc) []

/-- Model of `checkCelestialEvents(timeState)` from the celestial-tracker module.
The null guard of the source on `timeState.moons?.lunara` / `veil` cannot fire in
the model, where both moon records are always present. -/
def checkCelestialEvents (timeState : TimeState) : List ActiveEvent :=
  checkCelestialEventsOver CELESTIAL_EVENTS timeState.moons.lunara
    timeState.moons.veil ⟨timeState.month, timeState.day⟩

/-- Returns `true` when evaluating the condition of a table entry throws. -/
def condThrows (kv : String × CelestialEvent) (lunara veil : MoonState)
    (date : CelestialDate) : Bool :=
  match kv.2.condition lunara veil date with
  | Except.error _ => true
  | Except.ok _ => false

/-- The contribution of a single table entry to the result of
`checkCelestialEventsOver`: one pushed record when the condition returns
`true`, nothing when it returns `false` or throws. -/
def eventContrib (lunara veil : MoonState) (date : CelestialDate)
    (kv : String × CelestialEvent) : List ActiveEvent :=
  match kv.2.condition lunara veil date with
  | Except.ok true => [activeOf kv]
  | Except.ok false => []
  | Except.error _ => []

/-! ## Probe states used by concrete evaluations -/

/-- A state at year 5, month 1 (Frostmorn, 30 days), day 1, 00:00; the moon
records keep their defaults. -/
def cascadeProbeState : TimeState :=
  { createDefaultTimeState with year := 5, month := 1, day := 1, hour := 0, minute := 0 }

/-- The default state at 20:00 (for the skip-to example). -/
def eveningProbe : TimeState :=
  { createDefaultTimeState with hour := 20, minute := 0 }

/-- A state on year 5, month 7, day 20: five days after the Midsummer Eve
festival (month 7, day 15) began. -/
def passedFestivalProbe : TimeState :=
  { createDefaultTimeState with year := 5, month := 7, day := 20 }

/-- A state on year 5, month 7, day 10: five days before Midsummer Eve. -/
def upcomingProbe : TimeState :=
  { createDefaultTimeState with year := 5, month := 7, day := 10 }

/-- The Midsummer Eve entry of the `FESTIVALS` table. -/
def midsummer : Festival := FESTIVALS.get ⟨3, by decide⟩

/-- The single festival entry returned for `upcomingProbe` with a 30-day
horizon. -/
def midsummerEntry : UpcomingFestival :=
  (getUpcomingFestivals upcomingProbe 30).get ⟨0, by decide⟩

/-- A state in which both moons are full (and the veil sits at mid-cycle). -/
def convergenceProbe : TimeState :=
  { createDefaultTimeState with
      moons :=
        { lunara :=
            { createDefaultTimeState.moons.lunara with phase := "full", dayInCycle := 14 }
          veil :=
            { createDefaultTimeState.moons.veil with phase := "full", dayInCycle := 17 } } }

/-- The `convergence` entry of the `CELESTIAL_EVENTS` table. -/
def convergenceEntry : String × CelestialEvent := CELESTIAL_EVENTS.get ⟨0, by decide⟩

/-! ## Supporting lemmas -/

/-- Every month length the table can produce is at least 28. -/
theorem monthLength_ge (month year : Int) : 28 ≤ getMonthLength month year := by
  unfold getMonthLength
  cases h : monthsAt (month - 1) with
  | none => norm_num
  | some monthData =>
    have hmem : monthData ∈ MONTHS := by
      unfold monthsAt at h
      split_ifs at h
      · exact List.get?_mem h
    have : ∀ x ∈ MONTHS, 28 ≤ x.days := by decide
    split_ifs
    · norm_num
    · exact this monthData hmem

/-- Projection fact: `updateMoonPhases` leaves the year unchanged. -/
theorem updateMoonPhases_year (s : TimeState) : (updateMoonPhases s).year = s.year := rfl

/-- Projection fact: `updateMoonPhases` leaves the month unchanged. -/
theorem updateMoonPhases_month (s : TimeState) : (updateMoonPhases s).month = s.month := rfl

/-- Projection fact: `updateMoonPhases` leaves the day unchanged. -/
theorem updateMoonPhases_day (s : TimeState) : (updateMoonPhases s).day = s.day := rfl

/-- Projection fact: `updateMoonPhases` leaves the hour unchanged. -/
theorem updateMoonPhases_hour (s : TimeState) : (updateMoonPhases s).hour = s.hour := rfl

/-- Projection fact: `updateMoonPhases` leaves the minute unchanged. -/
theorem updateMoonPhases_minute (s : TimeState) : (updateMoonPhases s).minute = s.minute := rfl

/-- The new lunara cycle day written by `updateMoonPhases`. -/
theorem updateMoonPhases_lunara_day (s : TimeState) :
    (updateMoonPhases s).moons.lunara.dayInCycle =
      (s.moons.lunara.dayInCycle + 1) % LUNARA_CYCLE := rfl

/-- The new veil cycle day written by `updateMoonPhases`. -/
theorem updateMoonPhases_veil_day (s : TimeState) :
    (updateMoonPhases s).moons.veil.dayInCycle =
      (s.moons.veil.dayInCycle + 1) % VEIL_CYCLE := rfl

/-- The new lunara phase written by `updateMoonPhases` is the phase table
looked up at the bucket index of the new cycle day. -/
theorem updateMoonPhases_lunara_phase (s : TimeState) :
    (updateMoonPhases s).moons.lunara.phase =
      MOON_PHASES.getD (lunaraPhaseIndex ((updateMoonPhases s).moons.lunara.dayInCycle))
        "undefined" := rfl

/-- The function `setTime` establishes the day-range invariant for every (arbitrary,
possibly out-of-range) input patch: it clamps `month` into `[1,12]`, then
`day` into `[1, getMonthLength month year]`.  This is the half of the range
invariant the source does maintain. -/
theorem setTime_day_invariant (patch : TimePatch) (s : TimeState) :
    1 ≤ (setTime patch s).day ∧
    (setTime patch s).day ≤ getMonthLength ((setTime patch s).month) ((setTime patch s).year) := by
  unfold setTime
  simp only [updateMoonPhases_year, updateMoonPhases_month, updateMoonPhases_day]
  have h28 := monthLength_ge (max 1 (min 12 (patch.month.getD s.month))) (patch.year.getD s.year)
  constructor
  · show 1 ≤ max 1 (min (getMonthLength _ _) _)
    omega
  · show max 1 (min (getMonthLength _ _) _) ≤ getMonthLength _ _
    omega

/-- Closed form of the minute-overflow loop: for a non-negative starting
value and a sufficient bound, it returns the value mod 60 and carries the
quotient into the hours. -/
theorem minuteLoop_spec (bound : Nat) (m h : Int) (h0 : 0 ≤ m) (hb : m.toNat ≤ bound) :
    minuteLoop bound m h = (m % 60, h + m / 60) := by
  induction bound generalizing m h with
  | zero =>
    have hm : m = 0 := by omega
    subst hm
    simp [minuteLoop]
  | succ bound ih =>
    rw [minuteLoop]
    split_ifs with h60
    · rw [ih (m - 60) (h + 1) (by omega) (by omega), Prod.mk.injEq]
      constructor
      · omega
      · omega
    · rw [Prod.mk.injEq]
      constructor
      · omega
      · omega

/-- Closed form of the hour-overflow loop: value mod 24, quotient carried
into the days, and the `dayAdvanced` flag set exactly when the loop body ran
at least once, i.e. when the incoming hour value is at least 24. -/
theorem hourLoop_spec (bound : Nat) (h d : Int) (adv : Bool) (h0 : 0 ≤ h)
    (hb : h.toNat ≤ bound) :
    hourLoop bound h d adv = (h % 24, d + h / 24, adv || decide (24 ≤ h)) := by
  induction bound generalizing h d adv with
  | zero =>
    have hh : h = 0 := by omega
    subst hh
    simp [hourLoop]
  | succ bound ih =>
    rw [hourLoop]
    split_ifs with h24
    · rw [ih (h - 24) (d + 1) true (by omega) (by omega), Prod.mk.injEq, Prod.mk.injEq]
      refine ⟨by omega, by omega, by simp [h24]⟩
    · rw [Prod.mk.injEq, Prod.mk.injEq]
      refine ⟨by omega, by omega, by simp [h24]⟩

/-- The cascade of `advanceTimeCore` with the minute and hour loops replaced
by their closed forms (the day loop is kept as is: its behaviour with the
stale month length is exactly what several claims are about). -/
theorem advanceTimeCore_spec (m : Int) (s : TimeState) (h0 : 0 ≤ s.minute + m)
    (hh : 0 ≤ s.hour + (s.minute + m) / 60) :
    advanceTimeCore m s =
      (let total := s.minute + m
       let hour1 := s.hour + total / 60
       let day1 := s.day + hour1 / 24
       let dmy := dayLoop day1.toNat (getMonthLength s.month s.year) day1 s.month s.year
         false false
       let state1 : TimeState :=
         { s with
           minute := total % 60
           hour := hour1 % 24
           day := dmy.1
           month := dmy.2.1
           year := dmy.2.2.1 }
       if 24 ≤ hour1 then updateMoonPhases state1 else state1) := by
  simp only [advanceTimeCore]
  rw [minuteLoop_spec _ _ _ h0 (le_refl _)]
  simp only []
  rw [hourLoop_spec _ _ _ _ hh (le_refl _)]
  simp only [Bool.false_or, decide_eq_true_eq]

/-! ## Claim C1 -/

set_option maxRecDepth 10000 in
/-- C1: the claim states that `advanceTime(m)` always moves the absolute
minute-count-since-epoch forward by exactly `m`.  The code fails this:
starting from year 5, month 1 (30 days), day 1, 00:00 and advancing
86400 minutes (60 days), the cascade lands on month 3, day 1, which is only
58 days (83520 minutes) past the start in the absolute count the calendar
itself defines — the `while (state.day > monthLength)` loop keeps subtracting the
month length of the *initial* month (30) instead of refreshing it per
month crossed (month 2 has 28 days), so multi-month jumps drift. -/
theorem advanceTime_breaks_absolute_count :
    advanceTime 86400 cascadeProbeState =
      Except.ok (advanceTimeCore 86400 cascadeProbeState) ∧
    (advanceTimeCore 86400 cascadeProbeState).month = 3 ∧
    (advanceTimeCore 86400 cascadeProbeState).day = 1 ∧
    absMinutes (advanceTimeCore 86400 cascadeProbeState) =
      absMinutes cascadeProbeState + 83520 ∧
    absMinutes (advanceTimeCore 86400 cascadeProbeState) ≠
      absMinutes cascadeProbeState + 86400 := by
  have hspec := advanceTimeCore_spec 86400 cascadeProbeState (by decide) (by decide)
  refine ⟨rfl, ?_, ?_, ?_, ?_⟩ <;> rw [hspec] <;> decide

/-! ## Claim C2 -/

set_option maxRecDepth 10000 in
/-- C2: the claim states that `day ∈ [1, monthLength(month, year)]` holds
after every mutating operation.  `setTime` does maintain it (see
`setTime_day_invariant`), but `advanceTime` breaks it: advancing 83520
minutes (58 days) from year 5, month 1, day 1, 00:00 leaves the state on
month 2, day 29, while month 2 (Deepsnow) has only 28 days — the day
overflow loop exits by comparing against the stale initial month length
30. -/
theorem advanceTime_breaks_day_invariant :
    advanceTime 83520 cascadeProbeState =
      Except.ok (advanceTimeCore 83520 cascadeProbeState) ∧
    (advanceTimeCore 83520 cascadeProbeState).month = 2 ∧
    (advanceTimeCore 83520 cascadeProbeState).day = 29 ∧
    getMonthLength (advanceTimeCore 83520 cascadeProbeState).month
        (advanceTimeCore 83520 cascadeProbeState).year <
      (advanceTimeCore 83520 cascadeProbeState).day := by
  have hspec := advanceTimeCore_spec 83520 cascadeProbeState (by decide) (by decide)
  refine ⟨rfl, ?_, ?_, ?_⟩ <;> rw [hspec] <;> decide

/-! ## Claim C3 -/

/-- C3 (counterexample): the claim states that a negative `minutes`
argument makes `advanceTime` signal an `InvalidArgument` condition instead
of returning a time state normally.  At the concrete input `-5` the call
returns `Except.ok` with the unchanged state — the only guard in the source is
`if (minutes <= 0) return getDomainState(DOMAIN);`, a silent no-op with no
error path. -/
theorem advanceTime_negative_returns_ok :
    advanceTime (-5) createDefaultTimeState = Except.ok createDefaultTimeState := rfl

/-- C3 (amended): for every negative `minutes` argument, `advanceTime`
returns the current state unchanged and signals no error. -/
theorem advanceTime_negative_noop (m : Int) (s : TimeState) (h : m < 0) :
    advanceTime m s = Except.ok s := by
  unfold advanceTime
  rw [if_pos (le_of_lt h)]

/-- Witness for `advanceTime_negative_noop` at `m = -120`. -/
theorem advanceTime_negative_noop_witness :
    advanceTime (-120) cascadeProbeState = Except.ok cascadeProbeState :=
  advanceTime_negative_noop (-120) cascadeProbeState (by decide)

/-! ## Claim C5 -/

/-- C5: the three spec examples of `estimateSceneDuration`.
`"3 hours later"` hits the explicit-hours rule (180 minutes, high);
`"they share a long conversation"` matches only the two scene rules
(estimates 45 and 15), and the result is their maximum 45 at medium
confidence, not their sum; `"..."` matches nothing and falls back to the
3-minute low-confidence default. -/
theorem estimateSceneDuration_examples :
    (estimateSceneDuration "3 hours later").minutes = 180 ∧
    (estimateSceneDuration "3 hours later").confidence = "high" ∧
    (estimateSceneDuration "they share a long conversation").minutes = 45 ∧
    (estimateSceneDuration "they share a long conversation").confidence = "medium" ∧
    (estimateSceneDuration "...").minutes = 3 ∧
    (estimateSceneDuration "...").confidence = "low" := by
  refine ⟨by decide, by decide, by decide, by decide, by decide, by decide⟩

/-! ## Claim C7 -/

/-- C7: for a clock with `hour ∈ [0,23]` and `minute ∈ [0,59]` and any of
the five valid symbolic targets, `calculateSkipToMinutes` computes
`targetHour - currentHour`, adds 24 hours when that difference is not
positive, and lands on a strictly positive forward-only minute delta; in
particular, from 20:00 the `morning` target (hour 7) yields 660 minutes. -/
theorem calculateSkipToMinutes_forward (s : TimeState) (target : String) (th : Int)
    (hh0 : 0 ≤ s.hour) (hh1 : s.hour ≤ 23) (hm0 : 0 ≤ s.minute) (hm1 : s.minute ≤ 59)
    (ht : skipTargetHour target = some th) :
    calculateSkipToMinutes s target =
      (if th - s.hour ≤ 0 then th - s.hour + 24 else th - s.hour) * 60 - s.minute ∧
    0 < calculateSkipToMinutes s target ∧
    calculateSkipToMinutes eveningProbe "morning" = 660 := by
  have hval : calculateSkipToMinutes s target =
      (if th - s.hour ≤ 0 then th - s.hour + 24 else th - s.hour) * 60 - s.minute := by
    unfold calculateSkipToMinutes
    rw [ht]
  have hbound : 0 ≤ th ∧ th ≤ 21 := by
    unfold skipTargetHour at ht
    split_ifs at ht <;> simp_all <;> omega
  refine ⟨hval, ?_, by decide⟩
  rw [hval]
  split_ifs <;> omega

/-- Witness for `calculateSkipToMinutes_forward`: instantiated at 20:00 with
target `morning` (hour 7). -/
theorem calculateSkipToMinutes_forward_witness :
    calculateSkipToMinutes eveningProbe "morning" =
      (if (7 : Int) - eveningProbe.hour ≤ 0 then 7 - eveningProbe.hour + 24
       else 7 - eveningProbe.hour) * 60 - eveningProbe.minute ∧
    0 < calculateSkipToMinutes eveningProbe "morning" ∧
    calculateSkipToMinutes eveningProbe "morning" = 660 :=
  calculateSkipToMinutes_forward eveningProbe "morning" 7 (by decide) (by decide)
    (by decide) (by decide) rfl

/-! ## Claim C6 -/

/-- C6 (counterexample): the claim states that each of the 8 phase values is
held for a contiguous run of `28/8` days of the 28-day cycle.  The bucket
boundaries of `floor(d / 3.5)` are not uniform in whole days: the phase
`"new"` (bucket 0) is held for the 4 cycle days `{0,1,2,3}`, and a 4-day run
is not `28/8 = 3.5` days (`4 * 8 ≠ 28`). -/
theorem lunara_new_run_is_four_days :
    ((List.range 28).filter
      (fun d => MOON_PHASES.getD (lunaraPhaseIndex d) "undefined" == "new")).length = 4 ∧
    4 * 8 ≠ 28 := by
  refine ⟨by decide, by decide⟩

/-- The lunara cycle day after `n` applications of `updateMoonPhases`. -/
theorem iterate_lunara_day (s : TimeState) (h0 : 0 ≤ s.moons.lunara.dayInCycle)
    (h1 : s.moons.lunara.dayInCycle < 28) (n : Nat) :
    (updateMoonPhases^[n] s).moons.lunara.dayInCycle =
      (s.moons.lunara.dayInCycle + n) % 28 := by
  induction n with
  | zero =>
    simp only [Function.iterate_zero, id_eq, Nat.cast_zero, add_zero]
    omega
  | succ n ih =>
    rw [Function.iterate_succ_apply', updateMoonPhases_lunara_day, ih]
    have : ((n : Int) + 1) = ((n + 1 : Nat) : Int) := by push_cast; ring
    rw [show LUNARA_CYCLE = 28 from rfl]
    omega

/-- C6 (amended): from any in-range starting cycle day, iterating
`updateMoonPhases` cycles `dayInCycle` through 28 distinct values before
repeating; after every step the phase is the 8-entry `MOON_PHASES` table
indexed by `floor(dayInCycle / (28/8))`; and each of the 8 buckets is held
for a contiguous run of 3 or 4 (not `28/8 = 3.5`) cycle days. -/
theorem lunara_cycle_28 (s : TimeState) (h0 : 0 ≤ s.moons.lunara.dayInCycle)
    (h1 : s.moons.lunara.dayInCycle < 28) :
    (((List.range 28).map
        (fun n => (updateMoonPhases^[n] s).moons.lunara.dayInCycle)).Nodup) ∧
    (updateMoonPhases^[28] s).moons.lunara.dayInCycle = s.moons.lunara.dayInCycle ∧
    (∀ n : Nat, (updateMoonPhases^[n + 1] s).moons.lunara.phase =
      MOON_PHASES.getD
        (lunaraPhaseIndex ((updateMoonPhases^[n + 1] s).moons.lunara.dayInCycle))
        "undefined") ∧
    (∀ k : Nat, k < 8 → ∃ start len : Nat, (len = 3 ∨ len = 4) ∧
      ∀ d : Nat, d < 28 → (lunaraPhaseIndex d = k ↔ (start ≤ d ∧ d < start + len))) := by
  refine ⟨?_, ?_, ?_, ?_⟩
  · have hmap : (List.range 28).map
        (fun n => (updateMoonPhases^[n] s).moons.lunara.dayInCycle) =
        (List.range 28).map (fun n : Nat => (s.moons.lunara.dayInCycle + (n : Int)) % 28) := by
      apply List.map_congr_left
      intro n _
      exact iterate_lunara_day s h0 h1 n
    rw [hmap]
    apply List.Nodup.map_on _ (List.nodup_range 28)
    intro a ha b hb hab
    rw [List.mem_range] at ha hb
    omega
  · rw [iterate_lunara_day s h0 h1 28]
    omega
  · intro n
    rw [Function.iterate_succ_apply', updateMoonPhases_lunara_phase,
      updateMoonPhases_lunara_day]
  · intro k hk
    interval_cases k
    · exact ⟨0, 4, Or.inr rfl, by decide⟩
    · exact ⟨4, 3, Or.inl rfl, by decide⟩
    · exact ⟨7, 4, Or.inr rfl, by decide⟩
    · exact ⟨11, 3, Or.inl rfl, by decide⟩
    · exact ⟨14, 4, Or.inr rfl, by decide⟩
    · exact ⟨18, 3, Or.inl rfl, by decide⟩
    · exact ⟨21, 4, Or.inr rfl, by decide⟩
    · exact ⟨25, 3, Or.inl rfl, by decide⟩

/-- Witness for `lunara_cycle_28` at the default state (cycle day 11):
after 28 single-day advances the cycle day is back to 11. -/
theorem lunara_cycle_28_witness :
    (updateMoonPhases^[28] createDefaultTimeState).moons.lunara.dayInCycle =
      createDefaultTimeState.moons.lunara.dayInCycle :=
  (lunara_cycle_28 createDefaultTimeState (by decide) (by decide)).2.1

/-! ## Claim C8 -/

/-- One estimator loop iteration either keeps the confidence of the
accumulator or sets it to `"high"` or `"medium"`. -/
theorem estimateStep_confidence (text : String) (acc : EstimateResult × Nat)
    (p : DurationRule) :
    (estimateStep text acc p).1.confidence = acc.1.confidence ∨
    (estimateStep text acc p).1.confidence = "high" ∨
    (estimateStep text acc p).1.confidence = "medium" := by
  unfold estimateStep
  repeat' split
  all_goals by_cases hp : p.priority < acc.2 <;>
    by_cases hq : acc.2 ≤ p.priority <;>
    by_cases hc : acc.1.confidence = "high" <;>
    simp [hp, hq, hc]

/-- Folding the estimator loop keeps the confidence inside
`{low, medium, high}` whenever it starts there. -/
theorem estimateFold_confidence (text : String) (l : List DurationRule)
    (acc : EstimateResult × Nat)
    (hacc : acc.1.confidence = "low" ∨ acc.1.confidence = "medium" ∨
      acc.1.confidence = "high") :
    ((l.foldl (estimateStep text) acc).1.confidence = "low" ∨
     (l.foldl (estimateStep text) acc).1.confidence = "medium" ∨
     (l.foldl (estimateStep text) acc).1.confidence = "high") := by
  induction l generalizing acc with
  | nil => simpa using hacc
  | cons p l ih =>
    rw [List.foldl_cons]
    apply ih
    rcases estimateStep_confidence text acc p with h | h | h
    · rw [h]; exact hacc
    · right; right; exact h
    · right; left; exact h

/-- When no rule matches the text, the estimator loop leaves the
accumulator untouched. -/
theorem estimateFold_nomatch (text : String) (l : List DurationRule)
    (hno : ∀ p ∈ l, reTest p.pattern text = false) :
    ∀ acc : EstimateResult × Nat, l.foldl (estimateStep text) acc = acc := by
  induction l with
  | nil => intro acc; rfl
  | cons p l ih =>
    intro acc
    rw [List.foldl_cons]
    have hp : reTest p.pattern text = false := hno p (List.mem_cons_self p l)
    have hstep : estimateStep text acc p = acc := by
      unfold estimateStep
      rw [hp]
      simp
    rw [hstep]
    exact ih (fun q hq => hno q (List.mem_cons_of_mem p hq)) acc

/-- The post-processing after the estimator loop only rewrites `minutes`,
never the confidence. -/
theorem estimateSceneDuration_confidence_eq (s : String) (hne : s ≠ "") :
    (estimateSceneDuration s).confidence =
      (DURATION_PATTERNS.foldl (estimateStep s)
        ({ minutes := 0, confidence := "low", detectedTypes := [], skipTo := none }, 0)).1.confidence := by
  simp only [estimateSceneDuration, hne, if_false]
  split_ifs <;> rfl

/-- Text matched by no rule degrades to the 3-minute low-confidence
default. -/
theorem estimateSceneDuration_nomatch (s : String) (hne : s ≠ "")
    (hno : ∀ p ∈ DURATION_PATTERNS, reTest p.pattern s = false) :
    estimateSceneDuration s =
      { minutes := 3, confidence := "low", detectedTypes := [], skipTo := none } := by
  simp only [estimateSceneDuration, hne, if_false,
    estimateFold_nomatch s DURATION_PATTERNS hno]
  decide

/-- C8 (counterexample): the claim states that every input string, the
empty string included, yields a confidence in `{low, medium, high}`.  The
falsy guard `if (!responseText)` of the source fires on the empty string and
returns the out-of-range confidence `"none"`. -/
theorem estimateSceneDuration_empty_confidence :
    (estimateSceneDuration "").confidence = "none" ∧
    (estimateSceneDuration "").confidence ≠ "low" ∧
    (estimateSceneDuration "").confidence ≠ "medium" ∧
    (estimateSceneDuration "").confidence ≠ "high" := by
  refine ⟨rfl, by decide, by decide, by decide⟩

/-- C8 (amended): for every non-empty input string the returned confidence
is one of `low`, `medium`, `high`; and non-empty text matched by no rule is
not an error — it degrades to the 3-minute low-confidence default.  (The
empty string instead returns the sentinel confidence `"none"`.) -/
theorem estimateSceneDuration_confidence_range (s : String) (hne : s ≠ "") :
    ((estimateSceneDuration s).confidence = "low" ∨
     (estimateSceneDuration s).confidence = "medium" ∨
     (estimateSceneDuration s).confidence = "high") ∧
    ((∀ p ∈ DURATION_PATTERNS, reTest p.pattern s = false) →
      (estimateSceneDuration s).minutes = 3 ∧
      (estimateSceneDuration s).confidence = "low") := by
  constructor
  · rw [estimateSceneDuration_confidence_eq s hne]
    exact estimateFold_confidence s DURATION_PATTERNS _ (Or.inl rfl)
  · intro hno
    rw [estimateSceneDuration_nomatch s hne hno]
    exact ⟨rfl, rfl⟩

/-- Witness for `estimateSceneDuration_confidence_range` at the unparsable
text `"..."`. -/
theorem estimateSceneDuration_confidence_range_witness :
    (estimateSceneDuration "...").confidence = "low" ∨
    (estimateSceneDuration "...").confidence = "medium" ∨
    (estimateSceneDuration "...").confidence = "high" :=
  (estimateSceneDuration_confidence_range "..." (by decide)).1

/-! ## Claim C9 -/

/-- The function `checkCelestialEventsOver` is the concatenation of the per-entry
contributions. -/
theorem checkOver_eq_flatMap (events : List (String × CelestialEvent))
    (lunara veil : MoonState) (date : CelestialDate) :
    checkCelestialEventsOver events lunara veil date =
      events.flatMap (eventContrib lunara veil date) := by
  unfold checkCelestialEventsOver
  suffices h : ∀ init : List ActiveEvent,
      events.foldl (fun acc kv =>
        match kv.2.condition lunara veil date with
        | Except.ok true => acc ++ [activeOf kv]
        | Except.ok false => acc
        | Except.error _ => acc) init =
      init ++ events.flatMap (eventContrib lunara veil date) by
    simpa using h []
  induction events with
  | nil => intro init; simp
  | cons kv events ih =>
    intro init
    rw [List.foldl_cons, List.flatMap_cons, ih]
    unfold eventContrib
    cases hc : kv.2.condition lunara veil date with
    | ok b => cases b <;> simp
    | error e => simp

/-- C9: evaluating the celestial-event table never propagates an error:
entries whose condition throws contribute nothing and do not block the
others (removing them from the table leaves the result unchanged), and
every entry whose condition evaluates to `true` appears in the result,
tagged with its rarity — simultaneously true entries all appear. -/
theorem checkCelestialEvents_defensive (events : List (String × CelestialEvent))
    (lunara veil : MoonState) (date : CelestialDate) :
    (checkCelestialEventsOver (events.filter (fun kv => ! condThrows kv lunara veil date))
        lunara veil date =
      checkCelestialEventsOver events lunara veil date) ∧
    (∀ kv ∈ events, kv.2.condition lunara veil date = Except.ok true →
      activeOf kv ∈ checkCelestialEventsOver events lunara veil date ∧
      (activeOf kv).rarity = kv.2.rarity) ∧
    (∀ ts : TimeState, checkCelestialEvents ts =
      checkCelestialEventsOver CELESTIAL_EVENTS ts.moons.lunara ts.moons.veil
        ⟨ts.month, ts.day⟩) := by
  refine ⟨?_, ?_, fun ts => rfl⟩
  · rw [checkOver_eq_flatMap, checkOver_eq_flatMap]
    induction events with
    | nil => rfl
    | cons kv events ih =>
      rw [List.flatMap_cons, List.filter_cons]
      by_cases hc : condThrows kv lunara veil date
      · have hcontrib : eventContrib lunara veil date kv = [] := by
          unfold condThrows at hc
          unfold eventContrib
          cases hcc : kv.2.condition lunara veil date with
          | ok b => rw [hcc] at hc; simp at hc
          | error e => rfl
        simp [hc, hcontrib, ih]
      · simp [hc, List.flatMap_cons, ih]
  · intro kv hkv htrue
    refine ⟨?_, rfl⟩
    rw [checkOver_eq_flatMap]
    rw [List.mem_flatMap]
    refine ⟨kv, hkv, ?_⟩
    unfold eventContrib
    rw [htrue]
    exact List.mem_singleton.mpr rfl

/-- Witness for `checkCelestialEvents_defensive`: in the dual-full-moon
probe state, the condition of the `convergence` entry is true, so the event is
reported with rarity `very_rare`. -/
theorem checkCelestialEvents_defensive_witness :
    activeOf convergenceEntry ∈ checkCelestialEvents convergenceProbe ∧
    (activeOf convergenceEntry).rarity = "very_rare" := by
  have h := checkCelestialEvents_defensive CELESTIAL_EVENTS convergenceProbe.moons.lunara
    convergenceProbe.moons.veil ⟨convergenceProbe.month, convergenceProbe.day⟩
  have hmem := h.2.1 convergenceEntry (List.get_mem _ _ _) rfl
  rw [h.2.2 convergenceProbe] at *
  exact ⟨hmem.1, rfl⟩

/-! ## Claim C4 -/

/-- Every element of the festival accumulation loop comes from the initial
accumulator or from a table festival that passed the `[0, horizon]`
filter. -/
theorem upcomingFold_mem (ts : TimeState) (horizon : Int) (l : List Festival) :
    ∀ (init : List UpcomingFestival) (e : UpcomingFestival),
      e ∈ l.foldl (fun acc festival =>
        if 0 ≤ festivalDaysUntil ts festival ∧
            festivalDaysUntil ts festival ≤ horizon then
          acc ++ [{ festival := festival
                    daysUntil := festivalDaysUntil ts festival
                    isToday := festivalDaysUntil ts festival = 0
                    isOngoing := decide (festivalDaysUntil ts festival < 0 ∧
                      -festival.duration ≤ festivalDaysUntil ts festival) }]
        else acc) init →
      e ∈ init ∨ ∃ f ∈ l,
        (0 ≤ festivalDaysUntil ts f ∧ festivalDaysUntil ts f ≤ horizon) ∧
        e = { festival := f
              daysUntil := festivalDaysUntil ts f
              isToday := festivalDaysUntil ts f = 0
              isOngoing := decide (festivalDaysUntil ts f < 0 ∧
                -f.duration ≤ festivalDaysUntil ts f) } := by
  induction l with
  | nil => intro init e he; exact Or.inl he
  | cons f l ih =>
    intro init e he
    rw [List.foldl_cons] at he
    rcases ih _ e he with hstep | ⟨g, hg, hcond, heq⟩
    · by_cases hc : 0 ≤ festivalDaysUntil ts f ∧ festivalDaysUntil ts f ≤ horizon
      · rw [if_pos hc, List.mem_append] at hstep
        rcases hstep with hinit | hone
        · exact Or.inl hinit
        · exact Or.inr ⟨f, List.mem_cons_self f l, hc, List.mem_singleton.mp hone⟩
      · rw [if_neg hc] at hstep
        exact Or.inl hstep
    · exact Or.inr ⟨g, List.mem_cons_of_mem f hg, hcond, heq⟩

/-- C4 (amended): every entry returned by `getUpcomingFestivals` has a
non-negative `daysUntil` within the horizon and `isOngoing = false` — the
`isOngoing` computation (negative `daysUntil` within the festival length)
can never fire because the `[0, horizon]` filter runs first, so the claimed
biconditional holds only vacuously; and a festival of the current month
whose day has already passed is dropped from the result rather than wrapped
to next year (a returned same-month entry always has
`currentDay ≤ festival.day`). -/
theorem getUpcomingFestivals_entries (ts : TimeState) (horizon : Int)
    (e : UpcomingFestival) (he : e ∈ getUpcomingFestivals ts horizon) :
    0 ≤ e.daysUntil ∧ e.daysUntil ≤ horizon ∧
    e.isOngoing = false ∧
    (e.isOngoing = true ↔ (e.daysUntil < 0 ∧ -e.festival.duration ≤ e.daysUntil)) ∧
    (e.festival.month = ts.month → ts.day ≤ e.festival.day ∧
      e.daysUntil = e.festival.day - ts.day) := by
  unfold getUpcomingFestivals at he
  rw [(List.perm_insertionSort _ _).mem_iff] at he
  rcases upcomingFold_mem ts horizon FESTIVALS [] e he with hnil | ⟨f, _, ⟨h0, hh⟩, heq⟩
  · exact absurd hnil (List.not_mem_nil e)
  · subst heq
    dsimp only
    have hOngoing : decide (festivalDaysUntil ts f < 0 ∧
        -f.duration ≤ festivalDaysUntil ts f) = false := by
      rw [decide_eq_false_iff_not]
      intro hcontra
      omega
    refine ⟨h0, hh, hOngoing, ?_, ?_⟩
    · rw [hOngoing]
      constructor
      · intro hfalse
        exact absurd hfalse (by simp)
      · intro hcontra
        omega
    · intro hmonth
      have hdu : festivalDaysUntil ts f = f.day - ts.day := by
        unfold festivalDaysUntil
        rw [if_pos hmonth]
      constructor
      · omega
      · exact hdu

/-- Witness for `getUpcomingFestivals_entries`: the Midsummer Eve entry
returned five days ahead of the festival. -/
theorem getUpcomingFestivals_entries_witness :
    0 ≤ midsummerEntry.daysUntil ∧ midsummerEntry.daysUntil ≤ 30 ∧
    midsummerEntry.isOngoing = false ∧
    (midsummerEntry.isOngoing = true ↔ (midsummerEntry.daysUntil < 0 ∧
      -midsummerEntry.festival.duration ≤ midsummerEntry.daysUntil)) ∧
    (midsummerEntry.festival.month = upcomingProbe.month →
      upcomingProbe.day ≤ midsummerEntry.festival.day ∧
      midsummerEntry.daysUntil = midsummerEntry.festival.day - upcomingProbe.day) :=
  getUpcomingFestivals_entries upcomingProbe 30 midsummerEntry (List.get_mem _ _ _)

/-- C4 (counterexample): the claim states that a festival of the current
month whose day is already past is treated as occurring next year, with a
wrapped non-negative days-until.  On year 5, month 7, day 20, the Midsummer
Eve festival (month 7, day 15) would wrap to 356 days ahead — inside a
400-day horizon — yet `getUpcomingFestivals` omits it entirely: the
same-month branch computes `15 - 20 = -5` and the `[0, horizon]` filter
drops the entry (which also keeps every `isOngoing` flag false). -/
theorem getUpcomingFestivals_drops_passed_festival :
    midsummer.month = passedFestivalProbe.month ∧
    midsummer.day < passedFestivalProbe.day ∧
    getDaysUntilDate passedFestivalProbe midsummer.month midsummer.day true = 356 ∧
    (356 : Int) ≤ 400 ∧
    (getUpcomingFestivals passedFestivalProbe 400).filter
      (fun e => e.festival.name == "Midsummer Eve") = [] := by
  refine ⟨by decide, by decide, by decide, by decide, by decide⟩

/-! ## Claim C10 -/

/-- C10: on a single positive `advanceTime` call from a state with in-range
hour and minute, if at least one day boundary is crossed (the added minutes
push the clock past midnight), the `dayInCycle` of each moon advances by exactly
1 modulo its cycle length — however many calendar days elapsed — because
`updateMoonPhases` is invoked once per call, not once per day; a call that
crosses no day boundary leaves the moon records untouched. -/
theorem advanceTime_moon_step (m : Int) (s t : TimeState)
    (hh0 : 0 ≤ s.hour) (hh1 : s.hour ≤ 23) (hm0 : 0 ≤ s.minute) (hm1 : s.minute ≤ 59)
    (hpos : 0 < m) (hadv : advanceTime m s = Except.ok t) :
    (1440 ≤ s.hour * 60 + s.minute + m →
      t.moons.lunara.dayInCycle = (s.moons.lunara.dayInCycle + 1) % LUNARA_CYCLE ∧
      t.moons.veil.dayInCycle = (s.moons.veil.dayInCycle + 1) % VEIL_CYCLE) ∧
    (s.hour * 60 + s.minute + m < 1440 → t.moons = s.moons) := by
  have hteq : t = advanceTimeCore m s := by
    unfold advanceTime at hadv
    rw [if_neg (by omega)] at hadv
    exact (Except.ok.inj hadv).symm
  subst hteq
  rw [advanceTimeCore_spec m s (by omega)
    (by have := Int.ediv_nonneg (a := s.minute + m) (b := 60) (by omega) (by norm_num); omega)]
  simp only []
  constructor
  · intro hcross
    rw [if_pos (show 24 ≤ s.hour + (s.minute + m) / 60 by omega)]
    rw [updateMoonPhases_lunara_day, updateMoonPhases_veil_day]
    exact ⟨rfl, rfl⟩
  · intro hsame
    rw [if_neg (show ¬ 24 ≤ s.hour + (s.minute + m) / 60 by omega)]

/-- Witness for `advanceTime_moon_step`: advancing the default state
(18:00, lunara cycle day 11, veil cycle day 0) by one full day crosses a
day boundary and steps each moon by exactly one cycle day. -/
theorem advanceTime_moon_step_witness :
    (advanceTimeCore 1440 createDefaultTimeState).moons.lunara.dayInCycle =
      (createDefaultTimeState.moons.lunara.dayInCycle + 1) % LUNARA_CYCLE ∧
    (advanceTimeCore 1440 createDefaultTimeState).moons.veil.dayInCycle =
      (createDefaultTimeState.moons.veil.dayInCycle + 1) % VEIL_CYCLE :=
  (advanceTime_moon_step 1440 createDefaultTimeState
    (advanceTimeCore 1440 createDefaultTimeState)
    (by decide) (by decide) (by decide) (by decide) (by decide) rfl).1 (by decide)
